import Mathlib

/-
Verification of the CGP (context-generic programming) example crates: a shallow
embedding of the traits, providers and component wiring found under src/examples,
together with a model of the delegation resolver that the specification describes.
Rust traits are embedded as Lean type classes (the provider traits take the
provider type `Self` as an explicit first class parameter, mirroring the
"Self-less" provider-trait pattern), marker provider types are empty structures,
and the blanket impls of the source become blanket instances.
-/

/-- Model of `anyhow::Error`: for the purposes of these examples an anyhow error
is observationally its message string (built by the `anyhow!` macro from a
format string, or from a source error's text). -/
structure AnyhowError where
  message : String
deriving DecidableEq

/-- Decidable equality on `Except`, used to evaluate the examples' `Result`
values on concrete inputs. -/
instance {ε α : Type} [DecidableEq ε] [DecidableEq α] : DecidableEq (Except ε α) := fun x y =>
  match x, y with
  | Except.ok a, Except.ok b =>
    if h : a = b then isTrue (congrArg Except.ok h)
    else isFalse (fun hh => h (Except.ok.inj hh))
  | Except.ok _, Except.error _ => isFalse (fun hh => Except.noConfusion hh)
  | Except.error _, Except.ok _ => isFalse (fun hh => Except.noConfusion hh)
  | Except.error a, Except.error b =>
    if h : a = b then isTrue (congrArg Except.error h)
    else isFalse (fun hh => h (Except.error.inj hh))

namespace LinkConProv

/-- Rust's `core::fmt::Display`, modelled as the string that `format!` with a
`\x7b\x7d` placeholder produces for a value. -/
class Display (α : Type) where
  display_fmt : α → String

/-- Provider trait `StringFormatter<Context>` of
src/examples/08-linking-con-prov/string_formatter.rs lines 3-5: the context is
an explicit parameter, the implementing provider is the class parameter `Self`. -/
class StringFormatter (Self : Type) (Context : Type) where
  format_string : Context → String

/-- Consumer trait `CanFormatString` of
src/examples/08-linking-con-prov/main-blanket-impl-delegate.rs lines 26-28. -/
class CanFormatString (Context : Type) where
  format_string : Context → String

/-- Trait `HasComponents` of main-blanket-impl-delegate.rs lines 22-24: the
associated type `Components` is modelled as an `outParam`, determined by the
context's (unique) instance. -/
class HasComponents (Context : Type) (Components : outParam Type)

/-- Marker provider `FormatStringWithDisplay` (string_formatter.rs line 6). -/
structure FormatStringWithDisplay

/-- Body of `impl<Context: Display> StringFormatter<Context> for
FormatStringWithDisplay` (string_formatter.rs lines 10-17): `format!` on the
context's `Display` output. -/
def FormatStringWithDisplay.format_string {Context : Type} [Display Context]
    (context : Context) : String :=
  Display.display_fmt context

instance {Context : Type} [Display Context] : StringFormatter FormatStringWithDisplay Context :=
  ⟨FormatStringWithDisplay.format_string⟩

/-- Context `Person` of src/examples/08-linking-con-prov/main.rs lines 27-30. -/
structure Person where
  first_name : String
  last_name : String
deriving DecidableEq

/-- `impl Display for Person` (main.rs lines 32-36): `"\x7b\x7d \x7b\x7d"` of
first and last name. -/
instance : Display Person := ⟨fun p => p.first_name ++ " " ++ p.last_name⟩

/-- `impl HasComponents for Person` with `Components = FormatStringWithDisplay`
(main-blanket-impl-delegate.rs lines 71-74). -/
instance : HasComponents Person FormatStringWithDisplay := ⟨⟩

/-- Blanket impl of `CanFormatString` for any `Context: HasComponents` whose
`Components` implement `StringFormatter<Context>`, forwarding the call
(main-blanket-impl-delegate.rs lines 34-43). -/
instance instCanFormatStringBlanket {Context Components : Type}
    [HasComponents Context Components] [f : StringFormatter Components Context] :
    CanFormatString Context :=
  ⟨f.format_string⟩

end LinkConProv

namespace BlanketImpl

/-- Trait `HasName` of src/examples/05-blanket-trait-impl/main.rs lines 9-11. -/
class HasName (Context : Type) where
  name : Context → String

/-- Trait `CanGreet` (main.rs lines 13-15); `greet` prints a line, modelled
here as returning the printed string. -/
class CanGreet (Context : Type) where
  greet : Context → String

/-- Blanket impl of `CanGreet` for any `Context: HasName` (main.rs lines
17-24): prints `"Hello, \x7b\x7d!"` of the name. -/
instance instCanGreetBlanket {Context : Type} [HasName Context] : CanGreet Context :=
  ⟨fun c => "Hello, " ++ HasName.name c ++ "!"⟩

/-- Context `Person` of main.rs lines 29-31. -/
structure Person where
  name : String

instance : HasName Person := ⟨Person.name⟩

/-- Context `VipPerson` of main.rs lines 60-62; it does NOT implement
`HasName`. -/
structure VipPerson where
  name : String

/-- Context-specific `impl CanGreet for VipPerson` (main.rs lines 64-68),
printing `"A warm welcome to you, \x7b\x7d!"`; it can coexist with the blanket
impl only because `VipPerson` lacks `HasName`. -/
instance : CanGreet VipPerson :=
  ⟨fun v => "A warm welcome to you, " ++ v.name ++ "!"⟩

/-- Identity of the greeting implementation a context ends up with. -/
inductive GreetImpl where
  | genericProvider
  | contextSpecific
deriving DecidableEq

/-- Outcome of rustc's search for a `CanGreet` implementation of one context. -/
inductive GreetResolution where
  | resolved (which : GreetImpl)
  | conflictingImplementations
  | noImplementation
deriving DecidableEq

/-- Modelled from the source's documented compile-time behaviour
(src/examples/05-blanket-trait-impl/main.rs lines 70-87, where the
context-specific `impl CanGreet for Person` is shown commented out because it
raises a conflicting-implementation error): given whether the context
implements `HasName` (making the blanket impl applicable) and whether a
context-specific `CanGreet` impl is declared, what rustc resolves. Overlap of
an applicable blanket impl with an explicit impl is a coherence error, never a
priority choice. -/
def rustcResolveGreet (implementsHasName hasContextSpecificImpl : Bool) : GreetResolution :=
  match hasContextSpecificImpl, implementsHasName with
  | true, true => GreetResolution.conflictingImplementations
  | true, false => GreetResolution.resolved GreetImpl.contextSpecific
  | false, true => GreetResolution.resolved GreetImpl.genericProvider
  | false, false => GreetResolution.noImplementation

/-- Follows the spec's words for comparison (its tie-break rule of

the Delegation Resolver section: explicit context-specific bindings always take
precedence over any generic/default provider). -/
def specTieBreakResolveGreet (implementsHasName hasContextSpecificImpl : Bool) : GreetResolution :=
  match hasContextSpecificImpl, implementsHasName with
  | true, _ => GreetResolution.resolved GreetImpl.contextSpecific
  | false, true => GreetResolution.resolved GreetImpl.genericProvider
  | false, false => GreetResolution.noImplementation

end BlanketImpl

namespace ProviderDelegation

/-- Context `Person` shared by src/examples/09-provider-delegation/shared.rs
lines 2-6 and src/examples/10-comp-macro/main.rs lines 72-76, with derived
`Serialize`, `Deserialize`, `Debug`, `Eq`, `PartialEq`. -/
structure Person where
  first_name : String
  last_name : String
deriving DecidableEq

def quoteChar : Char := Char.ofNat 34

def lbraceChar : Char := Char.ofNat 123

def rbraceChar : Char := Char.ofNat 125

def hexDigitChar (n : Nat) : Char :=
  if n < 10 then Char.ofNat (48 + n) else Char.ofNat (97 + (n - 10))

def hexEscape (n : Nat) : String :=
  String.mk [hexDigitChar ((n / 4096) % 16), hexDigitChar ((n / 256) % 16),
    hexDigitChar ((n / 16) % 16), hexDigitChar (n % 16)]

/-- JSON escaping of one character as `serde_json` emits it: quote and
backslash escaped, control characters as the two-character escapes
`\b \t \n \f \r` or `\u00XX`. -/
def escapeJsonChar (c : Char) : String :=
  if c = quoteChar then "\\\""
  else if c = '\\' then "\\\\"
  else if c = Char.ofNat 8 then "\\b"
  else if c = Char.ofNat 9 then "\\t"
  else if c = Char.ofNat 10 then "\\n"
  else if c = Char.ofNat 12 then "\\f"
  else if c = Char.ofNat 13 then "\\r"
  else if c.toNat < 32 then "\\u" ++ hexEscape c.toNat
  else String.singleton c

def jsonStringLiteral (s : String) : String :=
  "\"" ++ s.data.foldl (fun acc c => acc ++ escapeJsonChar c) "" ++ "\""

/-- Model of `serde_json::to_string` at the derived `Serialize` of `Person`
(an external library the examples call): a compact object with the fields in
declaration order and JSON-escaped string values. -/
def personToJsonString (p : Person) : String :=
  "\x7b\"first_name\":" ++ jsonStringLiteral p.first_name
    ++ ",\"last_name\":" ++ jsonStringLiteral p.last_name ++ "\x7d"

def isJsonWs (c : Char) : Bool :=
  c = ' ' || c = Char.ofNat 9 || c = Char.ofNat 10 || c = Char.ofNat 13

def skipWs : List Char → List Char
  | [] => []
  | c :: cs => if isJsonWs c then skipWs cs else c :: cs

def hexVal (c : Char) : Option Nat :=
  if 48 ≤ c.toNat ∧ c.toNat ≤ 57 then some (c.toNat - 48)
  else if 97 ≤ c.toNat ∧ c.toNat ≤ 102 then some (c.toNat - 87)
  else if 65 ≤ c.toNat ∧ c.toNat ≤ 70 then some (c.toNat - 55)
  else none

def consChar (c : Char) (r : Option (List Char × List Char)) : Option (List Char × List Char) :=
  r.map (fun p => (c :: p.1, p.2))

/-- JSON string-body scanner (after the opening quote), fuelled for
termination: returns the decoded characters and the input after the closing
quote. Handles the escapes `\" \\ \/ \b \f \n \r \t \uXXXX` and rejects raw
control characters, as `serde_json` does. -/
def parseStringBody : Nat → List Char → Option (List Char × List Char)
  | 0, _ => none
  | _ + 1, [] => none
  | fuel + 1, c :: rest =>
    if c = quoteChar then some ([], rest)
    else if c = '\\' then
      match rest with
      | [] => none
      | e :: rest2 =>
        if e = quoteChar then consChar quoteChar (parseStringBody fuel rest2)
        else if e = '\\' then consChar '\\' (parseStringBody fuel rest2)
        else if e = '/' then consChar '/' (parseStringBody fuel rest2)
        else if e = 'b' then consChar (Char.ofNat 8) (parseStringBody fuel rest2)
        else if e = 'f' then consChar (Char.ofNat 12) (parseStringBody fuel rest2)
        else if e = 'n' then consChar (Char.ofNat 10) (parseStringBody fuel rest2)
        else if e = 'r' then consChar (Char.ofNat 13) (parseStringBody fuel rest2)
        else if e = 't' then consChar (Char.ofNat 9) (parseStringBody fuel rest2)
        else if e = 'u' then
          match rest2 with
          | h1 :: h2 :: h3 :: h4 :: rest3 =>
            match hexVal h1, hexVal h2, hexVal h3, hexVal h4 with
            | some a, some b, some c3, some d =>
              consChar (Char.ofNat (a * 4096 + b * 256 + c3 * 16 + d))
                (parseStringBody fuel rest3)
            | _, _, _, _ => none
          | _ => none
        else none
    else if c.toNat < 32 then none
    else consChar c (parseStringBody fuel rest)

def parseStringToken (fuel : Nat) (l : List Char) : Option (String × List Char) :=
  match l with
  | [] => none
  | c :: rest =>
    if c = quoteChar then (parseStringBody fuel rest).map (fun p => (String.mk p.1, p.2))
    else none

def parseMember (fuel : Nat) (l : List Char) : Option ((String × String) × List Char) := do
  let (key, r1) ← parseStringToken fuel (skipWs l)
  match skipWs r1 with
  | [] => none
  | c :: r3 =>
    if c = ':' then do
      let (v, r4) ← parseStringToken fuel (skipWs r3)
      some ((key, v), r4)
    else none

def parseMembers : Nat → List Char → Option (List (String × String) × List Char)
  | 0, _ => none
  | fuel + 1, l => do
    let (m, r1) ← parseMember fuel l
    match skipWs r1 with
    | [] => none
    | c :: r3 =>
      if c = ',' then do
        let (ms, r4) ← parseMembers fuel r3
        some (m :: ms, r4)
      else if c = rbraceChar then some ([m], r3)
      else none

/-- Top-level JSON object reader, for the subset where every member value is a
JSON string (which covers `Person`, whose two fields are `String`): returns
the member list, requiring the input to be a single object with nothing but
whitespace after it. -/
def parseTopLevelObject (s : String) : Option (List (String × String)) :=
  match skipWs s.data with
  | [] => none
  | c :: rest =>
    if c = lbraceChar then
      match skipWs rest with
      | [] => none
      | c2 :: r2 =>
        if c2 = rbraceChar then
          if (skipWs r2).isEmpty then some [] else none
        else do
          let (ms, r3) ← parseMembers (s.length + 1) (c2 :: r2)
          if (skipWs r3).isEmpty then some ms else none
    else none

def countKey (ms : List (String × String)) (k : String) : Nat :=
  (ms.filter (fun m => m.1 = k)).length

/-- Model of `serde_json::from_str` at the derived `Deserialize` of `Person`
(an external library the examples call), on the string-valued-member subset:
both fields required exactly once (duplicates are an error), unknown members
ignored, field order free. Error messages are representative, not serde's
exact text; no claim depends on them. -/
def personFromJsonString (s : String) : Except AnyhowError Person :=
  match parseTopLevelObject s with
  | none => Except.error (AnyhowError.mk "invalid JSON for Person")
  | some ms =>
    match ms.lookup "first_name", ms.lookup "last_name" with
    | some fn, some ln =>
      if countKey ms "first_name" = 1 ∧ countKey ms "last_name" = 1 then
        Except.ok (Person.mk fn ln)
      else Except.error (AnyhowError.mk "duplicate field")
    | _, _ => Except.error (AnyhowError.mk "missing field")

/-- Derived `serde::Serialize`, modelled as the `serde_json` encoding it
induces. -/
class Serialize (α : Type) where
  to_json_string : α → String

/-- Derived `serde::Deserialize`, modelled as the `serde_json::from_str`
decoding it induces. -/
class Deserialize (α : Type) where
  from_json_str : String → Except AnyhowError α

instance : Serialize Person := ⟨personToJsonString⟩

instance : Deserialize Person := ⟨personFromJsonString⟩

/-- Consumer trait `CanFormatToString`
(src/examples/09-provider-delegation/shared.rs lines 15-17,
src/examples/10-comp-macro/main.rs lines 29-36). -/
class CanFormatToString (Context : Type) where
  format_to_string : Context → Except AnyhowError String

/-- Consumer trait `CanParseFromString` (shared.rs lines 19-21, 10-comp-macro
main.rs lines 38-45). -/
class CanParseFromString (Context : Type) where
  parse_from_string : String → Except AnyhowError Context

/-- Provider trait `StringFormatter<Context>` (shared.rs lines 23-25). -/
class StringFormatter (Self : Type) (Context : Type) where
  format_to_string : Context → Except AnyhowError String

/-- Provider trait `StringParser<Context>` (shared.rs lines 27-29). -/
class StringParser (Self : Type) (Context : Type) where
  parse_from_string : String → Except AnyhowError Context

/-- Trait `HasComponents` (shared.rs lines 8-10), associated type as
`outParam`. -/
class HasComponents (Context : Type) (Components : outParam Type)

/-- Trait `DelegateComponent<Name>`
(src/examples/09-provider-delegation/delgate_provider.rs lines 15-17),
associated type `Delegate` as `outParam`. -/
class DelegateComponent (Self : Type) (Name : Type) (Delegate : outParam Type)

/-- Component name `StringFormatterComponent` (delgate_provider.rs line 19). -/
structure StringFormatterComponent

/-- Component name `StringParserComponent` (delgate_provider.rs line 21). -/
structure StringParserComponent

/-- Provider `FormatAsJsonString`
(src/examples/09-provider-delegation/aggregate_provider.rs line 45,
10-comp-macro main.rs line 48). -/
structure FormatAsJsonString

/-- Body of `impl<Context: Serialize> StringFormatter<Context> for
FormatAsJsonString` (aggregate_provider.rs lines 47-54): `Ok` of
`serde_json::to_string`. -/
def FormatAsJsonString.format_to_string {Context : Type} [Serialize Context]
    (context : Context) : Except AnyhowError String :=
  Except.ok (Serialize.to_json_string context)

instance {Context : Type} [Serialize Context] : StringFormatter FormatAsJsonString Context :=
  ⟨FormatAsJsonString.format_to_string⟩

/-- Provider `ParseFromJsonString` (aggregate_provider.rs line 56,
10-comp-macro main.rs line 59). -/
structure ParseFromJsonString

/-- Body of `impl<Context: Deserialize> StringParser<Context> for
ParseFromJsonString` (aggregate_provider.rs lines 58-65): `Ok` of
`serde_json::from_str`. -/
def ParseFromJsonString.parse_from_string {Context : Type} [Deserialize Context]
    (json_str : String) : Except AnyhowError Context :=
  Deserialize.from_json_str json_str

instance {Context : Type} [Deserialize Context] : StringParser ParseFromJsonString Context :=
  ⟨ParseFromJsonString.parse_from_string⟩

/-- Blanket impl of `CanFormatToString` via `HasComponents`
(aggregate_provider.rs lines 18-26). -/
instance instCanFormatToStringBlanket {Context Components : Type}
    [HasComponents Context Components] [f : StringFormatter Components Context] :
    CanFormatToString Context :=
  ⟨f.format_to_string⟩

/-- Blanket impl of `CanParseFromString` via `HasComponents`
(aggregate_provider.rs lines 28-36). -/
instance instCanParseFromStringBlanket {Context Components : Type}
    [HasComponents Context Components] [f : StringParser Components Context] :
    CanParseFromString Context :=
  ⟨f.parse_from_string⟩

/-- Blanket provider impl of `StringFormatter` for any `Component:
DelegateComponent<StringFormatterComponent>` whose `Delegate` implements
`StringFormatter<Context>`, forwarding to the delegate (delgate_provider.rs
lines 23-31). -/
instance instStringFormatterDelegate {Component Delegate Context : Type}
    [DelegateComponent Component StringFormatterComponent Delegate]
    [d : StringFormatter Delegate Context] : StringFormatter Component Context :=
  ⟨fun context => d.format_to_string context⟩

/-- Blanket provider impl of `StringParser` via
`DelegateComponent<StringParserComponent>` (delgate_provider.rs lines 33-41). -/
instance instStringParserDelegate {Component Delegate Context : Type}
    [DelegateComponent Component StringParserComponent Delegate]
    [d : StringParser Delegate Context] : StringParser Component Context :=
  ⟨fun raw => d.parse_from_string raw⟩

/-- Aggregate provider `PersonComponents` (delgate_provider.rs line 70,
10-comp-macro main.rs line 78). -/
structure PersonComponents

/-- `impl HasComponents for Person` with `Components = PersonComponents`
(10-comp-macro main.rs lines 80-82). -/
instance : HasComponents Person PersonComponents := ⟨⟩

/-- `delegate_components!` entry `StringFormatterComponent: FormatAsJsonString`
(10-comp-macro main.rs lines 84-89; the same wiring is written out by hand in
delgate_provider.rs lines 72-74). -/
instance : DelegateComponent PersonComponents StringFormatterComponent FormatAsJsonString := ⟨⟩

/-- `delegate_components!` entry `StringParserComponent: ParseFromJsonString`
(10-comp-macro main.rs lines 84-89; delgate_provider.rs lines 76-78). -/
instance : DelegateComponent PersonComponents StringParserComponent ParseFromJsonString := ⟨⟩

/-- Consumer-side call `person.format_to_string()`. -/
def Person.format_to_string (p : Person) : Except AnyhowError String :=
  CanFormatToString.format_to_string p

/-- Consumer-side call `Person::parse_from_string(raw)`. -/
def Person.parse_from_string (raw : String) : Except AnyhowError Person :=
  CanParseFromString.parse_from_string raw

end ProviderDelegation

namespace ErrorHandling

/-- Abstract time values: `datetime::LocalDateTime` is modelled by its linearly
ordered timeline (a natural-number timestamp); the examples only compare times
with `<` via `Ord`. -/
abbrev LocalDateTime := Nat

/-- Error struct `ErrAuthTokenHasExpired` of
src/examples/13-error-handling/gen_error_mock_auth.rs lines 56-57, a unit
struct with derived `Debug`. -/
structure ErrAuthTokenHasExpired
deriving DecidableEq

/-- Rust's `core::fmt::Debug`, modelled as the string `format!` with a
`\x7b:?\x7d` placeholder produces. -/
class Debug (α : Type) where
  debug_fmt : α → String

/-- Derived `Debug` of the unit struct prints its type name. -/
instance : Debug ErrAuthTokenHasExpired := ⟨fun _ => "ErrAuthTokenHasExpired"⟩

/-- Provider `DebugAsAnyhow` (gen_error_mock_auth.rs line 107). -/
structure DebugAsAnyhow

/-- Body of `impl<Context, SourceError: Debug> ErrorRaiser<Context, SourceError>
for DebugAsAnyhow` (gen_error_mock_auth.rs lines 109-117):
`anyhow!` of the `Debug` formatting of the source error. -/
def DebugAsAnyhow.raise_error {SourceError : Type} [Debug SourceError]
    (e : SourceError) : AnyhowError :=
  AnyhowError.mk (Debug.debug_fmt e)

/-- Capability dictionary of a context as `ValidateTokenIsNotExpired` requires
it (gen_error_mock_auth.rs lines 59-62): `Context: HasCurrentTime +
CanFetchAuthTokenExpiry + CanRaiseError<ErrAuthTokenHasExpired>` with
`Context::Time: Ord`, over the context's bound `Time`, `AuthToken` and `Error`
types. -/
structure AuthOps (Context Time AuthToken Error : Type) where
  current_time : Context → Except Error Time
  fetch_auth_token_expiry : Context → AuthToken → Except Error Time
  raise_error : ErrAuthTokenHasExpired → Error

/-- Marker for the provider `ValidateTokenIsNotExpired`
(gen_error_mock_auth.rs line 54). -/
structure ValidateTokenIsNotExpired

/-- Body of `AuthTokenValidator<Context> for ValidateTokenIsNotExpired`
(gen_error_mock_auth.rs lines 64-77), with the two `?` propagations written as
explicit matches: fetch the current time, fetch the token expiry, return
`Ok(())` when `token_expiry < now` and otherwise raise
`ErrAuthTokenHasExpired` through the context's error raiser. -/
def ValidateTokenIsNotExpired.validate_auth_token {Context Time AuthToken Error : Type}
    [LinearOrder Time] (ops : AuthOps Context Time AuthToken Error)
    (context : Context) (auth_token : AuthToken) : Except Error Unit :=
  match ops.current_time context with
  | Except.error e => Except.error e
  | Except.ok now =>
    match ops.fetch_auth_token_expiry context auth_token with
    | Except.error e => Except.error e
    | Except.ok token_expiry =>
      if token_expiry < now then Except.ok ()
      else Except.error (ops.raise_error ErrAuthTokenHasExpired.mk)

/-- Context `MockApp` (gen_error_mock_auth.rs lines 129-131); the `BTreeMap`
token store is modelled as an association list queried by key. -/
structure MockApp where
  auth_tokens_store : List (String × LocalDateTime)

/-- Wiring of `MockAppComponents` for `MockApp` (gen_error_mock_auth.rs lines
133-163): `Error = anyhow::Error` via `UseAnyhowError`, error raiser
`DebugAsAnyhow`, time via `UseLocalDateTime` (whose `current_time` returns
`LocalDateTime::now()`, modelled by the explicit ambient-clock argument
`now`), `AuthToken = String` via `UseStringAuthToken`, and the
context-specific `AuthTokenExpiryFetcher<MockApp>` that looks the token up in
the store and otherwise raises `anyhow!("invalid auth token")`. -/
def mockAppComponents (now : LocalDateTime) : AuthOps MockApp LocalDateTime String AnyhowError :=
  ⟨fun _ => Except.ok now,
   fun context auth_token =>
     match context.auth_tokens_store.lookup auth_token with
     | some t => Except.ok t
     | none => Except.error (AnyhowError.mk "invalid auth token"),
   fun e => DebugAsAnyhow.raise_error e⟩

/-- Consumer-side call `mock_app.validate_auth_token(token)` as wired by
`AuthTokenValidatorComponent: ValidateTokenIsNotExpired` (gen_error_mock_auth.rs
line 148), with the ambient clock passed explicitly. -/
def MockApp.validate_auth_token (now : LocalDateTime) (app : MockApp)
    (auth_token : String) : Except AnyhowError Unit :=
  ValidateTokenIsNotExpired.validate_auth_token (mockAppComponents now) app auth_token

/-- Sample generic context used to evaluate the generic validator at concrete
values. -/
def sampleOps : AuthOps Unit Nat Unit String :=
  ⟨fun _ => Except.ok 5, fun _ _ => Except.ok 3, fun _ => "auth token has expired"⟩

/-- Sample `MockApp` whose store holds one token expiring at time 10. -/
def sampleMockApp : MockApp := ⟨[("token-1", 10)]⟩

end ErrorHandling

namespace Resolver

abbrev CapabilityId := String

abbrev ProviderId := String

abbrev ContextId := String

/-- Modelled from the spec: a DelegationTable entry maps a CapabilityId to a
direct Provider or to an aggregate provider holding a further table (a
delegation chain). The table construction and resolution that the spec
describes are carried out by rustc's trait system at compile time, so they are
not themselves code under src/; the model follows the spec's Data Model and
Delegation Resolver sections. -/
inductive Entry where
  | direct (provider : ProviderId)
  | aggregate (table : List (CapabilityId × Entry))

/-- Modelled from the spec: the structural resolution failures MissingProvider
and AmbiguousProvider of the Error Handling Design section, each naming the
capability involved. -/
inductive ResolutionError where
  | missingProvider (capability : CapabilityId)
  | ambiguousProvider (capability : CapabilityId)
deriving DecidableEq

mutual

/-- Modelled from the spec: steps 1-4 of the Delegation Resolver algorithm —
look the capability up, return a direct provider, recurse into an aggregate,
fail with MissingProvider when no entry exists. -/
def resolveEntry : Entry → CapabilityId → Except ResolutionError ProviderId
  | Entry.direct p, _ => Except.ok p
  | Entry.aggregate t, k => resolveInTable t k

/-- Table lookup half of the resolver: first entry with the sought key wins;
an empty table is a MissingProvider failure. -/
def resolveInTable : List (CapabilityId × Entry) → CapabilityId → Except ResolutionError ProviderId
  | [], k => Except.error (ResolutionError.missingProvider k)
  | (k2, e) :: rest, k => if k2 = k then resolveEntry e k else resolveInTable rest k

end

/-- First capability bound twice in a declaration list, if any. -/
def dupKey : List (CapabilityId × Entry) → Option CapabilityId
  | [] => none
  | (k, _) :: rest => if rest.any (fun b => decide (b.1 = k)) then some k else dupKey rest

/-- Modelled from the spec: table construction (`bind`) fails with
AmbiguousProvider when the same CapabilityId is declared twice for one
context, and otherwise yields the table; per the lazy-constraint policy it
consults no provider constraints. -/
def buildTable (bs : List (CapabilityId × Entry)) : Except ResolutionError (List (CapabilityId × Entry)) :=
  match dupKey bs with
  | some k => Except.error (ResolutionError.ambiguousProvider k)
  | none => Except.ok bs

/-- Modelled from the spec: the invocation-time failure
UnsatisfiedProviderConstraint, alongside the structural resolution failures. -/
inductive InvokeError where
  | resolution (e : ResolutionError)
  | unsatisfiedProviderConstraint (provider : ProviderId) (context : ContextId)
deriving DecidableEq

/-- Modelled from the spec: invoking a capability on a context resolves the
provider through the table and only then checks the provider's impl-side
constraint against the context (the lazy-constraint policy of the Error
Handling Design section). -/
def invoke (constraints : ProviderId → ContextId → Bool)
    (t : List (CapabilityId × Entry)) (context : ContextId) (k : CapabilityId) :
    Except InvokeError ProviderId :=
  match resolveInTable t k with
  | Except.error e => Except.error (InvokeError.resolution e)
  | Except.ok p =>
    if constraints p context then Except.ok p
    else Except.error (InvokeError.unsatisfiedProviderConstraint p context)

/-- A delegation chain of depth `n`: the capability `k` is delegated through
`n` nested aggregate providers before reaching the direct provider `b`. -/
def chain : Nat → ProviderId → CapabilityId → Entry
  | 0, b, _ => Entry.direct b
  | n + 1, b, k => Entry.aggregate [(k, chain n b k)]

/-- Bindings of src/examples/11-debugging/dep_error.rs lines 26-31:
`delegate_components!` wiring `StringFormatterComponent: FormatAsJsonString`
and `StringParserComponent: ParseFromJsonString` for the debugging example's
`Person`. -/
def depErrorBindings : List (CapabilityId × Entry) :=
  [("StringFormatterComponent", Entry.direct "FormatAsJsonString"),
   ("StringParserComponent", Entry.direct "ParseFromJsonString")]

/-- Whether a context implements `Serialize`: the debugging example's `Person`
(dep_error.rs lines 12-18) deliberately does not derive it. -/
def implementsSerialize (_context : ContextId) : Bool := false

/-- Whether a context implements `Deserialize`: the debugging example's
`Person` derives it (dep_error.rs line 14). -/
def implementsDeserialize (context : ContextId) : Bool := decide (context = "Person")

/-- Impl-side constraints of the two JSON providers (aggregate_provider.rs
lines 47-50 and 58-61): `FormatAsJsonString` requires `Context: Serialize`,
`ParseFromJsonString` requires `Context: Deserialize`. -/
def depErrorConstraints (p : ProviderId) (context : ContextId) : Bool :=
  if p = "FormatAsJsonString" then implementsSerialize context
  else if p = "ParseFromJsonString" then implementsDeserialize context
  else true

/-- Abstract concrete-type names the type-providing capabilities can bind. -/
inductive TypeRep where
  | anyhowError
  | stringType
deriving DecidableEq

/-- Concrete `Error` type each type provider binds: `UseAnyhowError`
(gen_error_mock_auth.rs lines 101-105) binds `anyhow::Error`; the hypothetical
second binding of the spec's type-binding-consistency property binds a
different, string-typed error; other providers bind no `Error` type. -/
def providerErrorTypeOutput (p : ProviderId) : Option TypeRep :=
  if p = "UseAnyhowError" then some TypeRep.anyhowError
  else if p = "UseStringError" then some TypeRep.stringType
  else none

/-- Bindings of `delegate_components!` for `MockAppComponents`
(gen_error_mock_auth.rs lines 139-150); the bracketed group wires both
`TimeTypeComponent` and `CurrentTimeGetterComponent` to `UseLocalDateTime`,
and the context-specific `AuthTokenExpiryFetcher<MockApp>` impl of lines
152-163 is recorded as a binding to `MockAppComponents` itself. -/
def mockAppBindings : List (CapabilityId × Entry) :=
  [("ErrorTypeComponent", Entry.direct "UseAnyhowError"),
   ("ErrorRaiserComponent", Entry.direct "DebugAsAnyhow"),
   ("TimeTypeComponent", Entry.direct "UseLocalDateTime"),
   ("CurrentTimeGetterComponent", Entry.direct "UseLocalDateTime"),
   ("AuthTokenTypeComponent", Entry.direct "UseStringAuthToken"),
   ("AuthTokenValidatorComponent", Entry.direct "ValidateTokenIsNotExpired"),
   ("AuthTokenExpiryFetcherComponent", Entry.direct "MockAppComponents")]

/-- Modelled from the spec: the abstract `Error` type a context observes is
obtained by resolving the type-providing capability `ErrorTypeComponent` in
the context's table and reading off the type that provider binds. -/
def resolveErrorType (t : List (CapabilityId × Entry)) : Except ResolutionError TypeRep :=
  match resolveInTable t "ErrorTypeComponent" with
  | Except.error e => Except.error e
  | Except.ok p =>
    match providerErrorTypeOutput p with
    | some ty => Except.ok ty
    | none => Except.error (ResolutionError.missingProvider "ErrorTypeComponent")

/-- Modelled from the spec: every capability that references the abstract type
name `Error` observes it through the one `ErrorTypeComponent` binding of the
context's table (the Abstract Type Binder routes all references through one
binding per context and type name); the `referencing` argument records which
capability performs the reference and, by construction, cannot change the
answer. -/
def observedErrorType (t : List (CapabilityId × Entry)) (_referencing : CapabilityId) :
    Except ResolutionError TypeRep :=
  resolveErrorType t

end Resolver

namespace Resolver

theorem dupKey_cons_eq_none {k : CapabilityId} {e : Entry} {tl : List (CapabilityId × Entry)}
    (h : dupKey ((k, e) :: tl) = none) :
    tl.any (fun b => decide (b.1 = k)) = false ∧ dupKey tl = none := by
  by_cases hc : tl.any (fun b => decide (b.1 = k)) = true
  · rw [dupKey, if_pos hc] at h
    exact absurd h (by simp)
  · refine ⟨Bool.eq_false_iff.mpr hc, ?_⟩
    rw [dupKey, if_neg hc] at h
    exact h

theorem entry_eq_of_dupKey_none :
    ∀ (bs : List (CapabilityId × Entry)) (k : CapabilityId) (e1 e2 : Entry),
      dupKey bs = none → (k, e1) ∈ bs → (k, e2) ∈ bs → e1 = e2 := by
  intro bs
  induction bs with
  | nil => intro k e1 e2 _ h1; cases h1
  | cons hd tl ih =>
    intro k e1 e2 hdup h1 h2
    obtain ⟨k0, e0⟩ := hd
    obtain ⟨hany, htl⟩ := dupKey_cons_eq_none hdup
    rcases List.mem_cons.mp h1 with h1h | h1t <;> rcases List.mem_cons.mp h2 with h2h | h2t
    · injection h1h with hk1 he1
      injection h2h with hk2 he2
      rw [he1, he2]
    · injection h1h with hk1 he1
      exfalso
      have hmem : (k, e2) ∈ tl := h2t
      have : tl.any (fun b => decide (b.1 = k0)) = true :=
        List.any_eq_true.mpr ⟨(k, e2), hmem, by simp [hk1]⟩
      rw [hany] at this
      exact Bool.false_ne_true this
    · injection h2h with hk2 he2
      exfalso
      have hmem : (k, e1) ∈ tl := h1t
      have : tl.any (fun b => decide (b.1 = k0)) = true :=
        List.any_eq_true.mpr ⟨(k, e1), hmem, by simp [hk2]⟩
      rw [hany] at this
      exact Bool.false_ne_true this
    · exact ih k e1 e2 htl h1t h2t

end Resolver

namespace LinkConProv

/-- Claim C1: for every context wired through `HasComponents` to a single
provider implementing the provider trait, the consumer-trait call equals the
provider-trait call with the context passed explicitly; in particular, every
`Person` value's `format_string()` equals
`FormatStringWithDisplay::format_string(&person)`. -/
theorem c1_consumer_call_equals_provider_call :
    (∀ (Context Components : Type) [HasComponents Context Components]
      [f : StringFormatter Components Context] (c : Context),
      CanFormatString.format_string c = f.format_string c)
    ∧ ∀ p : Person,
      CanFormatString.format_string p = FormatStringWithDisplay.format_string p :=
  ⟨fun _ _ _ _ _ => rfl, fun _ => rfl⟩

end LinkConProv

namespace ProviderDelegation

/-- Claim C2: with `Person` delegating through the aggregate provider
`PersonComponents`, whose `DelegateComponent` entry for
`StringFormatterComponent` is `FormatAsJsonString`, the consumer call
`person.format_to_string()` equals
`FormatAsJsonString::format_to_string(&person)`; and in the resolver model a
delegation chain of any depth `n` resolves to the final provider, with no
fixed depth limit. -/
theorem c2_delegation_chain_resolves_to_target :
    (∀ p : Person, Person.format_to_string p = FormatAsJsonString.format_to_string p)
    ∧ ∀ (n : Nat) (b : Resolver.ProviderId) (k : Resolver.CapabilityId),
      Resolver.resolveEntry (Resolver.chain n b k) k = Except.ok b := by
  constructor
  · intro p
    rfl
  · intro n b k
    induction n with
    | zero => rfl
    | succ m ih => simp [Resolver.chain, Resolver.resolveEntry, Resolver.resolveInTable, ih]

/-- Claim C3: for `Person \x7b "John", "Smith" \x7d` wired with the JSON
formatting provider, `format_to_string()` returns `Ok` of exactly the literal
`\x7b"first_name":"John","last_name":"Smith"\x7d`. -/
theorem c3_format_to_string_json_literal :
    Person.format_to_string (Person.mk "John" "Smith")
      = Except.ok "\x7b\"first_name\":\"John\",\"last_name\":\"Smith\"\x7d" := by
  decide

/-- Claim C4: `parse_from_string` of the literal
`\x7b"first_name":"John","last_name":"Smith"\x7d` returns `Ok` of a `Person`
structurally equal to `Person \x7b "John", "Smith" \x7d`, and parsing the
output of `format_to_string` round-trips to the original person. -/
theorem c4_parse_from_string_round_trip :
    Person.parse_from_string "\x7b\"first_name\":\"John\",\"last_name\":\"Smith\"\x7d"
      = Except.ok (Person.mk "John" "Smith")
    ∧ (Person.format_to_string (Person.mk "John" "Smith")).bind
        (fun s => Person.parse_from_string s)
      = Except.ok (Person.mk "John" "Smith") := by
  exact ⟨by decide, by decide⟩

end ProviderDelegation

namespace ErrorHandling

/-- Claim C5: whenever `current_time` and `fetch_auth_token_expiry` both
succeed, `ValidateTokenIsNotExpired::validate_auth_token` returns `Ok(())`
exactly when the fetched token expiry is strictly earlier than the current
time (`token_expiry < now`), and otherwise returns the error raised from
`ErrAuthTokenHasExpired`. -/
theorem c5_validate_ok_iff_expiry_before_now {Context Time AuthToken Error : Type}
    [LinearOrder Time] (ops : AuthOps Context Time AuthToken Error)
    (context : Context) (auth_token : AuthToken) (now token_expiry : Time)
    (hnow : ops.current_time context = Except.ok now)
    (hexp : ops.fetch_auth_token_expiry context auth_token = Except.ok token_expiry) :
    (ValidateTokenIsNotExpired.validate_auth_token ops context auth_token = Except.ok ()
      ↔ token_expiry < now)
    ∧ (¬ token_expiry < now →
      ValidateTokenIsNotExpired.validate_auth_token ops context auth_token
        = Except.error (ops.raise_error ErrAuthTokenHasExpired.mk)) := by
  constructor
  · rw [ValidateTokenIsNotExpired.validate_auth_token, hnow, hexp]
    by_cases h : token_expiry < now <;> simp [h]
  · intro h
    rw [ValidateTokenIsNotExpired.validate_auth_token, hnow, hexp]
    simp [h]

/-- Witness for C5 at a concrete context: current time 5, token expiry 3. -/
theorem c5_witness :
    (ValidateTokenIsNotExpired.validate_auth_token sampleOps () () = Except.ok ()
      ↔ (3 : Nat) < 5)
    ∧ (¬ (3 : Nat) < 5 →
      ValidateTokenIsNotExpired.validate_auth_token sampleOps () ()
        = Except.error (sampleOps.raise_error ErrAuthTokenHasExpired.mk)) :=
  c5_validate_ok_iff_expiry_before_now sampleOps () () 5 3 rfl rfl

/-- Claim C6: when `MockApp`'s `validate_auth_token` takes its error branch,
the error the external caller observes is exactly
`DebugAsAnyhow::raise_error(ErrAuthTokenHasExpired)`, an `anyhow::Error` whose
message is the `Debug` formatting `"ErrAuthTokenHasExpired"`. -/
theorem c6_error_branch_returns_raiser_value (app : MockApp) (auth_token : String)
    (now token_expiry : LocalDateTime)
    (hfetch : app.auth_tokens_store.lookup auth_token = some token_expiry)
    (hbranch : ¬ token_expiry < now) :
    MockApp.validate_auth_token now app auth_token
      = Except.error (DebugAsAnyhow.raise_error ErrAuthTokenHasExpired.mk)
    ∧ DebugAsAnyhow.raise_error ErrAuthTokenHasExpired.mk
      = AnyhowError.mk "ErrAuthTokenHasExpired" := by
  constructor
  · rw [MockApp.validate_auth_token, ValidateTokenIsNotExpired.validate_auth_token]
    simp [mockAppComponents, hfetch, hbranch]
  · rfl

/-- Witness for C6: the sample store's token expires at 10, the clock reads 5,
so the error branch runs. -/
theorem c6_witness :
    MockApp.validate_auth_token 5 sampleMockApp "token-1"
      = Except.error (DebugAsAnyhow.raise_error ErrAuthTokenHasExpired.mk)
    ∧ DebugAsAnyhow.raise_error ErrAuthTokenHasExpired.mk
      = AnyhowError.mk "ErrAuthTokenHasExpired" :=
  c6_error_branch_returns_raiser_value sampleMockApp "token-1" 5 10 rfl (by decide)

end ErrorHandling

namespace Resolver

/-- Claim C7: registration never checks a provider's impl-side constraints —
table construction succeeds whenever the keys are unique, in particular for
the debugging example that wires `FormatAsJsonString` for a `Person` that does
not implement `Serialize` — and the `UnsatisfiedProviderConstraint` failure
surfaces only when a capability routed through that provider is invoked,
while a capability whose provider's constraint holds still succeeds. -/
theorem c7_registration_succeeds_constraint_checked_at_use :
    (∀ bs : List (CapabilityId × Entry), dupKey bs = none → buildTable bs = Except.ok bs)
    ∧ buildTable depErrorBindings = Except.ok depErrorBindings
    ∧ implementsSerialize "Person" = false
    ∧ invoke depErrorConstraints depErrorBindings "Person" "StringFormatterComponent"
      = Except.error (InvokeError.unsatisfiedProviderConstraint "FormatAsJsonString" "Person")
    ∧ invoke depErrorConstraints depErrorBindings "Person" "StringParserComponent"
      = Except.ok "ParseFromJsonString" := by
  refine ⟨?_, rfl, rfl, rfl, rfl⟩
  intro bs h
  rw [buildTable, h]

/-- Claim C8: declaring the same CapabilityId twice for one context with two
different providers makes table construction fail with `AmbiguousProvider`
under every declaration order — it is never silently resolved by a priority
among explicit bindings. -/
theorem c8_duplicate_binding_fails_any_order (bs : List (CapabilityId × Entry))
    (k : CapabilityId) (e1 e2 : Entry)
    (h1 : (k, e1) ∈ bs) (h2 : (k, e2) ∈ bs) (hne : e1 ≠ e2) :
    ∀ bs2 : List (CapabilityId × Entry), bs.Perm bs2 →
      ∃ k2, buildTable bs2 = Except.error (ResolutionError.ambiguousProvider k2) := by
  intro bs2 hp
  cases hdk : dupKey bs2 with
  | some k2 => exact ⟨k2, by rw [buildTable, hdk]⟩
  | none =>
    exact absurd
      (entry_eq_of_dupKey_none bs2 k e1 e2 hdk (hp.mem_iff.mp h1) (hp.mem_iff.mp h2)) hne

/-- Witness for C8: binding `StringFormatterComponent` to both
`FormatAsJsonString` and `FormatAsPrettifiedJsonString` is rejected. -/
theorem c8_witness :
    ∃ k2, buildTable
        [("StringFormatterComponent", Entry.direct "FormatAsJsonString"),
         ("StringFormatterComponent", Entry.direct "FormatAsPrettifiedJsonString")]
      = Except.error (ResolutionError.ambiguousProvider k2) :=
  c8_duplicate_binding_fails_any_order
    [("StringFormatterComponent", Entry.direct "FormatAsJsonString"),
     ("StringFormatterComponent", Entry.direct "FormatAsPrettifiedJsonString")]
    "StringFormatterComponent"
    (Entry.direct "FormatAsJsonString") (Entry.direct "FormatAsPrettifiedJsonString")
    (List.Mem.head _) (List.Mem.tail _ (List.Mem.head _))
    (fun h => by
      injection h with h2
      exact absurd h2 (by decide))
    _ (List.Perm.refl _)

/-- Claim C10: `MockApp`'s table resolves `ErrorTypeComponent` to
`UseAnyhowError`, so the observed `Error` type is `anyhow::Error`, and every
capability of the table that references `Error` observes that same type;
binding `ErrorTypeComponent` a second time to a provider of a different type
is rejected at table construction with `AmbiguousProvider`. -/
theorem c10_error_type_binding_consistent :
    resolveInTable mockAppBindings "ErrorTypeComponent" = Except.ok "UseAnyhowError"
    ∧ resolveErrorType mockAppBindings = Except.ok TypeRep.anyhowError
    ∧ (∀ k : CapabilityId, k ∈ mockAppBindings.map Prod.fst →
      observedErrorType mockAppBindings k = Except.ok TypeRep.anyhowError)
    ∧ buildTable (mockAppBindings ++ [("ErrorTypeComponent", Entry.direct "UseStringError")])
      = Except.error (ResolutionError.ambiguousProvider "ErrorTypeComponent") :=
  ⟨rfl, rfl, fun _ _ => rfl, rfl⟩

end Resolver

namespace BlanketImpl

/-- Claim C9 counterexample: at the `Person` point of the blanket-impl example
(the context implements `HasName`, so the generic provider applies, and a
context-specific `CanGreet` impl is declared), rustc reports conflicting
implementations; resolution does not return the explicit context-specific
binding, contradicting the claim and the spec's tie-break wording. -/
theorem c9_overlap_is_conflict_not_precedence :
    rustcResolveGreet true true = GreetResolution.conflictingImplementations
    ∧ rustcResolveGreet true true ≠ GreetResolution.resolved GreetImpl.contextSpecific
    ∧ rustcResolveGreet true true ≠ specTieBreakResolveGreet true true := by
  decide

/-- Claim C9 as amended: a context-specific impl is the one invoked only when
the generic provider does not apply to the context — `VipPerson`, which lacks
`HasName`, greets with its own implementation while `Person` uses the generic
one — and when the generic provider does apply, declaring a context-specific
impl is a conflicting-implementation error rather than a precedence choice. -/
theorem c9_explicit_used_only_when_generic_inapplicable :
    (∀ v : VipPerson, CanGreet.greet v = "A warm welcome to you, " ++ v.name ++ "!")
    ∧ (∀ p : Person, CanGreet.greet p = "Hello, " ++ p.name ++ "!")
    ∧ rustcResolveGreet false true = GreetResolution.resolved GreetImpl.contextSpecific
    ∧ rustcResolveGreet true false = GreetResolution.resolved GreetImpl.genericProvider
    ∧ rustcResolveGreet true true = GreetResolution.conflictingImplementations :=
  ⟨fun _ => rfl, fun _ => rfl, rfl, rfl, rfl⟩

end BlanketImpl
